import Mathlib

/-!
Verification development for the MemoryNest semantic memory retrieval and
nudge-generation pipeline.

The definitions below are a shallow embedding of the TypeScript sources:
- `src/backend/src/services/vectorStore.ts` (vector index adapter over the
  external Chroma vector database),
- the AI service module (`generateEmbedding`, `summarizeMemory`,
  `processMemoryQuery`, `generateNudges`),
- the memory routes (`POST /` create and `PUT /:id` update in
  `src/backend/src/routes/memories.ts`).

External collaborators (the OpenAI client, the Chroma collection, the
Supabase relational store) are modeled by explicit outcome parameters:
a call that can fail is an `Except Unit` value, a JSON payload that may
omit fields is a structure of `Option` fields, and the vector database
query is modeled by the list of entries it selects together with the
distance score it reports for each.  JavaScript falsy-coalescing
(`x || d`) is modeled by `jsNumOrZero` / `jsStrOr`.  Similarity scores
are rationals.
-/

namespace MemoryNest

/-- A metadata value in a Chroma metadata record: the source stores strings
(userId, summary, type, title, people, tags) and numbers (mood). -/
inductive MetaValue : Type
  | str (s : String)
  | num (q : ℚ)
deriving DecidableEq

/-- A Chroma metadata record, modeled as an association list in insertion
order.  A JavaScript object spread puts later keys after earlier ones and a
later duplicate key wins, which `metaLookup` reproduces by preferring the
last occurrence of a key. -/
abbrev Metadata : Type := List (String × MetaValue)

/-- Key lookup in a metadata record: the last binding of the key wins,
matching JavaScript object-spread semantics. -/
def metaLookup : Metadata → String → Option MetaValue
  | [], _ => none
  | (k, v) :: rest, key =>
    match metaLookup rest key with
    | some w => some w
    | none => if k == key then some v else none

/-- An entry stored in the Chroma collection: id, document text, embedding
vector and metadata record, as written by `collection.add`. -/
structure ChromaEntry : Type where
  id : String
  document : String
  embedding : List ℚ
  metadata : Metadata
deriving DecidableEq

/-- Models `x || 0` applied to a possibly-absent numeric value: an absent
value yields 0, and a present value yields itself (JavaScript maps the falsy
value 0 to the fallback 0, which is the same number). -/
def jsNumOrZero : Option ℚ → ℚ
  | none => 0
  | some q => q

/-- Models `x || d` applied to a possibly-absent string: absent and empty
strings (both falsy) yield the fallback. -/
def jsStrOr : Option String → String → String
  | none, d => d
  | some s, d => if s = "" then d else s

/-- The Chroma response for a single query embedding, after the source has
taken the leading `[0]` of each nested array: `ids` is
`results.ids ∧ results.ids[0]`, and the other fields hold the per-row
values addressed as `results.distances?.[0]?.[index]` etc., any of which
may be absent. -/
structure ChromaQueryResult : Type where
  ids : Option (List String)
  distances : Option (List (Option ℚ))
  documents : Option (List (Option String))
  metadatas : Option (List (Option Metadata))
deriving DecidableEq

/-- Models the optional-chained double index `arr?.[0]?.[i]` (with the
outer `[0]` already folded into `ChromaQueryResult`). -/
def optIndex {α : Type} (o : Option (List (Option α))) (i : Nat) : Option α :=
  match o with
  | none => none
  | some l => (l[i]?).join

/-- A row of the value returned by `searchMemoriesBySimilarity`. -/
structure SimilarMemory : Type where
  memoryId : String
  similarity : ℚ
  content : String
  summary : String
  metadata : Metadata
deriving DecidableEq

/-- Models `results.metadatas?.[0]?.[index]?.summary || ''`: the summary
string found in the row metadata, or the empty string when the metadata or
the key is absent (or not a string). -/
def rowSummary : Option Metadata → String
  | none => ""
  | some m =>
    match metaLookup m "summary" with
    | some (MetaValue.str s) => s
    | _ => ""

/-- The row-construction loop of `searchMemoriesBySimilarity`:
`results.ids[0].map((id, index) => ...)` with its running index. -/
def buildSimilarRows (res : ChromaQueryResult) : Nat → List String → List SimilarMemory
  | _, [] => []
  | i, id :: rest =>
    { memoryId := id
      similarity := jsNumOrZero (optIndex res.distances i)
      content := jsStrOr (optIndex res.documents i) ""
      summary := rowSummary (optIndex res.metadatas i)
      metadata := (optIndex res.metadatas i).getD [] }
      :: buildSimilarRows res (i + 1) rest

/-- Embedding of `searchMemoriesBySimilarity` (vectorStore.ts lines
160-173), the part after the external `collection.query` call: when the
response carries no ids return `[]`, otherwise build one row per returned
id and keep the rows with `similarity >= threshold`.  The `limit`
parameter of the source is passed to the database as `nResults` and does
not occur in this post-processing; it reappears in the model of the query
call below. -/
def searchMemoriesBySimilarity (res : ChromaQueryResult) (threshold : ℚ) :
    List SimilarMemory :=
  match res.ids with
  | none => []
  | some ids =>
    (buildSimilarRows res 0 ids).filter fun m => decide (threshold ≤ m.similarity)

/-- The `where` filter the source passes to `collection.query`:
equality of the metadata `userId` with the requesting user and of the
metadata `type` with the literal string for memory entries. -/
def chromaWhereMatch (uid : String) (e : ChromaEntry) : Bool :=
  (match metaLookup e.metadata "userId" with
   | some (MetaValue.str s) => s == uid
   | _ => false)
  &&
  (match metaLookup e.metadata "type" with
   | some (MetaValue.str s) => s == "memory"
   | _ => false)

/-- Model of the external Chroma `collection.query` response: the database
selects some list of stored entries (its nearest-neighbor choice, which the
contract constrains in the theorems: entries match the `where` filter, at
most `nResults` of them, ranked by the reported score) and reports for each
a distance value `dist e`, which may be absent.  The response arrays are the
parallel projections of the selected entries. -/
def chromaQuery (dist : ChromaEntry → Option ℚ) (selected : List ChromaEntry) :
    ChromaQueryResult :=
  { ids := some (selected.map ChromaEntry.id)
    distances := some (selected.map dist)
    documents := some (selected.map fun e => some e.document)
    metadatas := some (selected.map fun e => some e.metadata) }

/-- The `SimilarMemory` row that `searchMemoriesBySimilarity` builds from a
selected entry of a `chromaQuery` response. -/
def entryRow (dist : ChromaEntry → Option ℚ) (e : ChromaEntry) : SimilarMemory :=
  { memoryId := e.id
    similarity := jsNumOrZero (dist e)
    content := jsStrOr (some e.document) ""
    summary := rowSummary (some e.metadata)
    metadata := e.metadata }

theorem getElem_opt_middle {α : Type} (l₁ : List α) (a : α) (l₂ : List α) :
    (l₁ ++ a :: l₂)[l₁.length]? = some a := by
  induction l₁ with
  | nil => simp
  | cons b l ih => simpa using ih

theorem map_getElem_opt_middle {α β : Type} (f : β → α) (pre : List β) (e : β)
    (rest : List β) : ((pre ++ e :: rest).map f)[pre.length]? = some (f e) := by
  have h : pre.length = (pre.map f).length := (List.length_map pre f).symm
  rw [List.map_append, List.map_cons, h]
  exact getElem_opt_middle _ _ _

theorem buildSimilarRows_chromaQuery (dist : ChromaEntry → Option ℚ)
    (pre rest : List ChromaEntry) :
    buildSimilarRows (chromaQuery dist (pre ++ rest)) pre.length
        (rest.map ChromaEntry.id)
      = rest.map (entryRow dist) := by
  induction rest generalizing pre with
  | nil => rfl
  | cons e rest ih =>
    have hd : optIndex (chromaQuery dist (pre ++ e :: rest)).distances pre.length
        = dist e := by
      show ((((pre ++ e :: rest).map dist))[pre.length]?).join = dist e
      rw [map_getElem_opt_middle]
      rfl
    have hdoc : optIndex (chromaQuery dist (pre ++ e :: rest)).documents pre.length
        = some e.document := by
      show ((((pre ++ e :: rest).map fun x => some x.document))[pre.length]?).join
          = some e.document
      rw [map_getElem_opt_middle]
      rfl
    have hmd : optIndex (chromaQuery dist (pre ++ e :: rest)).metadatas pre.length
        = some e.metadata := by
      show ((((pre ++ e :: rest).map fun x => some x.metadata))[pre.length]?).join
          = some e.metadata
      rw [map_getElem_opt_middle]
      rfl
    have htail := ih (pre ++ [e])
    rw [List.append_assoc, List.singleton_append] at htail
    simp only [List.map_cons, buildSimilarRows, hd, hdoc, hmd]
    rw [show pre.length + 1 = (pre ++ [e]).length by simp, htail]
    rfl

/-- Composition of the vector-store search with the modeled database query:
the result is the selected entries projected to rows, filtered by the
similarity threshold. -/
theorem search_chromaQuery (dist : ChromaEntry → Option ℚ)
    (selected : List ChromaEntry) (threshold : ℚ) :
    searchMemoriesBySimilarity (chromaQuery dist selected) threshold
      = (selected.map (entryRow dist)).filter
          fun m => decide (threshold ≤ m.similarity) := by
  have h := buildSimilarRows_chromaQuery dist [] selected
  simp only [List.nil_append, List.length_nil] at h
  show (buildSimilarRows (chromaQuery dist selected) 0
      (selected.map ChromaEntry.id)).filter
        (fun m => decide (threshold ≤ m.similarity))
    = (selected.map (entryRow dist)).filter
        fun m => decide (threshold ≤ m.similarity)
  rw [h]

/-! ## Summarization client (`summarizeMemory` in the AI service module) -/

/-- The `emotions` object of a parsed LLM summary payload.  Every field is
`Option`: the source parses the model output with `JSON.parse` and reads the
fields without checking their presence. -/
structure EmotionPayload : Type where
  primary : Option String
  secondary : Option (List String)
  intensity : Option ℚ
  valence : Option String
deriving DecidableEq

/-- A parsed LLM summary payload (the value of `JSON.parse(content)` in
`summarizeMemory`).  All fields `Option`, since the upstream model may omit
any of them. -/
structure LlmSummaryPayload : Type where
  summary : Option String
  emotions : Option EmotionPayload
  tags : Option (List String)
  people : Option (List String)
  mood : Option ℚ
deriving DecidableEq

/-- The emotion record `summarizeMemory` returns: `secondary` is defaulted
to `[]` by `result.emotions.secondary || []`, every other field is passed
through unvalidated. -/
structure EmotionResult : Type where
  primary : Option String
  secondary : List String
  intensity : Option ℚ
  valence : Option String
deriving DecidableEq

/-- The value `summarizeMemory` returns (the TypeScript
`AISummaryResponse`): `tags` and `people` are defaulted to `[]`, `summary`
and `mood` are passed through exactly as parsed. -/
structure AISummaryResponse : Type where
  summary : Option String
  emotions : EmotionResult
  tags : List String
  people : List String
  mood : Option ℚ
deriving DecidableEq

/-- Embedding of `summarizeMemory`.  The LLM call outcome is a parameter:
`Except.error ()` models a thrown upstream error, `Except.ok none` models a
response with no content (the source then throws) or unparsable JSON, and
`Except.ok (some p)` models a successfully parsed payload `p`.  When
`p.emotions` is absent the source raises a TypeError while reading
`result.emotions.primary`, caught and rethrown, hence `Except.error`.
Otherwise the payload is returned without any schema validation. -/
def summarizeMemory (llmOutcome : Except Unit (Option LlmSummaryPayload)) :
    Except Unit AISummaryResponse :=
  match llmOutcome with
  | .error _ => .error ()
  | .ok none => .error ()
  | .ok (some p) =>
    match p.emotions with
    | none => .error ()
    | some e =>
      .ok { summary := p.summary
            emotions := { primary := e.primary
                          secondary := e.secondary.getD []
                          intensity := e.intensity
                          valence := e.valence }
            tags := p.tags.getD []
            people := p.people.getD []
            mood := p.mood }

/-- Modelled from the spec: the schema-validity predicate the specification
requires of a summary payload — summary a non-empty string, mood an integer
in the range 1 to 10, valence one of the three enum values.  This
definition follows the words of the specification; it is compared against
what the source actually does. -/
def specValidSummaryPayload (p : LlmSummaryPayload) : Bool :=
  (match p.summary with
   | some s => !(s == "")
   | none => false)
  &&
  (match p.mood with
   | some q => decide (q.den = 1 ∧ 1 ≤ q ∧ q ≤ 10)
   | none => false)
  &&
  (match p.emotions with
   | some e =>
     match e.valence with
     | some v => v == "positive" || v == "negative" || v == "neutral"
     | none => false
   | none => false)

/-! ## Nudge generator (`generateNudges` in the AI service module) -/

/-- A candidate nudge as parsed from the LLM payload; every field may be
absent. -/
structure NudgeCandidate : Type where
  type : Option String
  title : Option String
  message : Option String
  priority : Option String
  relatedPeople : Option (List String)
deriving DecidableEq

/-- The parsed LLM nudges payload. -/
structure LlmNudgePayload : Type where
  nudges : Option (List NudgeCandidate)
deriving DecidableEq

/-- Embedding of `generateNudges` (the part downstream of the LLM call; the
relational reads that only feed the prompt text are irrelevant to the
returned value).  The source parses the payload and returns
`result.nudges || []` without validating any candidate. -/
def generateNudges (llmOutcome : Except Unit (Option LlmNudgePayload)) :
    Except Unit (List NudgeCandidate) :=
  match llmOutcome with
  | .error _ => .error ()
  | .ok none => .error ()
  | .ok (some p) => .ok (p.nudges.getD [])

/-- Modelled from the spec: the well-formedness predicate the specification
requires of a candidate nudge — all required fields present, type one of
the four enum values, priority one of the three enum values. -/
def specValidNudge (n : NudgeCandidate) : Bool :=
  (match n.type with
   | some t => t == "reconnect" || t == "log_memory" || t == "emotional_gap"
       || t == "person_reminder"
   | none => false)
  &&
  (match n.title with
   | some _ => true
   | none => false)
  &&
  (match n.message with
   | some _ => true
   | none => false)
  &&
  (match n.priority with
   | some pr => pr == "low" || pr == "medium" || pr == "high"
   | none => false)

/-! ## Relational store records and the memory routes -/

/-- A memory row of the relational store, restricted to the fields the
create and update routes in memories.ts write and the query pipeline reads.
Attachment, location and weather fields are omitted; no claim mentions
them.  `summary` and `mood` are `Option` because they come from the
unvalidated summarizer output. -/
structure MemoryRecord : Type where
  id : String
  userId : String
  title : String
  content : String
  summary : Option String
  mood : Option ℚ
  tags : List String
  people : List String
  embedding : List ℚ
deriving DecidableEq

/-- Embedding of the create-memory route (memories.ts, `POST /`, lines
105-150), from the summarize call on: summarize, then embed, then
`createRecord` appends the new row to the relational store, then the
vector-store add (which does not touch the relational store) runs.  The two
external AI calls are outcome parameters; a thrown error short-circuits to
the catch block, leaving the store untouched.  The returned pair is the
relational store after the operation and the route outcome. -/
def createMemoryRoute (newId uid title content : String)
    (people tags : List String)
    (summarizeOutcome : Except Unit AISummaryResponse)
    (embedOutcome : Except Unit (List ℚ))
    (store : List MemoryRecord) :
    List MemoryRecord × Except Unit MemoryRecord :=
  match summarizeOutcome with
  | .error _ => (store, .error ())
  | .ok aiSummary =>
    match embedOutcome with
    | .error _ => (store, .error ())
    | .ok embedding =>
      let memory : MemoryRecord :=
        { id := newId
          userId := uid
          title := title
          content := content
          summary := aiSummary.summary
          mood := aiSummary.mood
          tags := tags ++ aiSummary.tags
          people := people
          embedding := embedding }
      (store ++ [memory], .ok memory)

/-- Replacement of the row with the given id, modeling
`updateRecord('memories', id, data)`. -/
def updateStoreRow (store : List MemoryRecord) (id : String)
    (updated : MemoryRecord) : List MemoryRecord :=
  store.map fun r => if r.id == id then updated else r

/-- Embedding of the update-memory route (memories.ts, `PUT /:id`, lines
395-441), from the re-summarization decision on: when new content is
supplied the route re-summarizes and re-embeds before `updateRecord` runs,
so a failure of either AI call leaves the store untouched; when no new
content is supplied the stored summary, mood and embedding are kept and
`updateRecord` runs directly. -/
def updateMemoryRoute (memoryId : String) (existing : MemoryRecord)
    (newTitle : Option String) (newContent : Option String)
    (newPeople : Option (List String)) (newTags : Option (List String))
    (summarizeOutcome : Except Unit AISummaryResponse)
    (embedOutcome : Except Unit (List ℚ))
    (store : List MemoryRecord) :
    List MemoryRecord × Except Unit MemoryRecord :=
  match newContent with
  | none =>
    let updated : MemoryRecord :=
      { existing with
        title := newTitle.getD existing.title
        people := newPeople.getD existing.people
        tags := newTags.getD existing.tags }
    (updateStoreRow store memoryId updated, .ok updated)
  | some c =>
    match summarizeOutcome with
    | .error _ => (store, .error ())
    | .ok aiSummary =>
      match embedOutcome with
      | .error _ => (store, .error ())
      | .ok embedding =>
        let updated : MemoryRecord :=
          { existing with
            title := newTitle.getD existing.title
            content := c
            summary := aiSummary.summary
            mood := aiSummary.mood
            tags := (newTags.getD existing.tags) ++ aiSummary.tags
            people := newPeople.getD existing.people
            embedding := embedding }
        (updateStoreRow store memoryId updated, .ok updated)

/-- The metadata record the update route passes to
`updateMemoryEmbedding` (memories.ts lines 435-440): title, comma-joined
people, comma-joined tags and mood — and no userId. -/
def updateRouteVectorMetadata (title people tags : String) (mood : ℚ) :
    Metadata :=
  [("title", MetaValue.str title), ("people", MetaValue.str people),
   ("tags", MetaValue.str tags), ("mood", MetaValue.num mood)]

/-- The vector-index entry written by `updateMemoryEmbedding`
(vectorStore.ts lines 101-110): the replacement `collection.add` stores
the metadata object with keys summary, type and the caller-supplied
metadata fields spread after them. -/
def updateMemoryEmbeddingEntry (memoryId content summary : String)
    (embedding : List ℚ) (metadata : Metadata) : ChromaEntry :=
  { id := memoryId
    document := content
    embedding := embedding
    metadata := ("summary", MetaValue.str summary)
      :: ("type", MetaValue.str "memory") :: metadata }

/-- For comparison, the entry written by `addMemoryEmbedding`
(vectorStore.ts lines 65-75), whose metadata does start with userId. -/
def addMemoryEmbeddingEntry (memoryId uid content summary : String)
    (embedding : List ℚ) (metadata : Metadata) : ChromaEntry :=
  { id := memoryId
    document := content
    embedding := embedding
    metadata := ("userId", MetaValue.str uid)
      :: ("summary", MetaValue.str summary)
      :: ("type", MetaValue.str "memory") :: metadata }

/-! ## Retrieval orchestrator (`processMemoryQuery`) -/

/-- The request `processMemoryQuery` receives.  The `limit` value is only
forwarded to the vector database as `nResults` and is therefore absorbed
into the modeled query outcome. -/
structure AIQueryRequest : Type where
  query : String
  userId : String
  limit : Option Nat
deriving DecidableEq

/-- The response `processMemoryQuery` returns on success. -/
structure AIQueryResponse : Type where
  memories : List MemoryRecord
  query : String
  explanation : String
  confidence : ℚ
deriving DecidableEq

/-- The outcomes of the external calls a single run of
`processMemoryQuery` makes: the embedding call, the vector-database query
(whose successful value is the raw Chroma response), the relational store
state and whether its fetch errors, and the explanation LLM call (whose
successful value is the possibly-absent message content). -/
structure QueryWorld : Type where
  embedOutcome : Except Unit (List ℚ)
  chromaOutcome : Except Unit ChromaQueryResult
  store : List MemoryRecord
  dbFails : Bool
  explainOutcome : Except Unit (Option String)

/-- Embedding of `processMemoryQuery` (AI service module, lines 385-468).
Stage order follows the source: embed the query (failure aborts), search
the vector store with threshold 0.6 (failure aborts), return the fixed
empty response when no similar memories are found, hydrate full rows from
the relational store with `.in('id', memoryIds).eq('userId', ...)` —
modeled as a filter of the store in store order, since the source applies
no ordering — then ask the LLM for an explanation.  A thrown explain
error propagates to the surrounding catch and aborts the query; only a
successful explain response with absent or empty content falls back to
the generic explanation string.  Confidence is the first similar entry's
similarity, or 0. -/
def processMemoryQuery (req : AIQueryRequest) (w : QueryWorld) :
    Except Unit AIQueryResponse :=
  match w.embedOutcome with
  | .error _ => .error ()
  | .ok _queryEmbedding =>
    match w.chromaOutcome with
    | .error _ => .error ()
    | .ok res =>
      let similarMemories := searchMemoriesBySimilarity res (mkRat 6 10)
      if similarMemories.length = 0 then
        .ok { memories := []
              query := req.query
              explanation := "No memories found matching your query."
              confidence := 0 }
      else
        if w.dbFails then .error ()
        else
          let memoryIds := similarMemories.map SimilarMemory.memoryId
          let memories := w.store.filter fun r =>
            memoryIds.contains r.id && r.userId == req.userId
          match w.explainOutcome with
          | .error _ => .error ()
          | .ok content =>
            .ok { memories := memories
                  query := req.query
                  explanation := jsStrOr content "Relevant memories found."
                  confidence :=
                    jsNumOrZero
                      (similarMemories.head?.map SimilarMemory.similarity) }

/-! ## Shared lemmas about the query pipeline -/

/-- Run of `processMemoryQuery` in which every stage outcome is fixed and
the similarity search is non-empty: the result is the hydrated rows (a
filter of the store in store order), the explanation (with the generic
fallback applied to absent or empty content) and the top similarity as
confidence. -/
theorem processMemoryQuery_run (req : AIQueryRequest) (w : QueryWorld)
    (emb : List ℚ) (res : ChromaQueryResult) (content : Option String)
    (hembed : w.embedOutcome = .ok emb)
    (hchroma : w.chromaOutcome = .ok res)
    (hne : searchMemoriesBySimilarity res (mkRat 6 10) ≠ [])
    (hdb : w.dbFails = false)
    (hexp : w.explainOutcome = .ok content) :
    processMemoryQuery req w
      = .ok { memories := w.store.filter fun r =>
                (((searchMemoriesBySimilarity res (mkRat 6 10)).map
                  SimilarMemory.memoryId).contains r.id) && r.userId == req.userId
              query := req.query
              explanation := jsStrOr content "Relevant memories found."
              confidence := jsNumOrZero
                ((searchMemoriesBySimilarity res (mkRat 6 10)).head?.map
                  SimilarMemory.similarity) } := by
  have hlen : ¬ (searchMemoriesBySimilarity res (mkRat 6 10)).length = 0 := by
    rw [List.length_eq_zero]
    exact hne
  simp only [processMemoryQuery, hembed, hchroma, hdb, hexp]
  rw [if_neg hlen]
  rfl

/-! ## Claim C4 -/

/-- C4: every call of the similarity query operation returns at most
`limit` entries, sorted by non-increasing similarity.  The cap and the
ranking of the raw response are the vector database contract (`nResults`
bounds the selected entries; they arrive ranked by the reported score),
stated as the two hypotheses; the source preserves both through its row
construction and threshold filter. -/
theorem claim_C4_search_cap_sorted
    (dist : ChromaEntry → Option ℚ) (selected : List ChromaEntry)
    (limit : Nat) (threshold : ℚ)
    (hcap : selected.length ≤ limit)
    (hrank : (selected.map fun e => jsNumOrZero (dist e)).Pairwise
      fun a b => b ≤ a) :
    (searchMemoriesBySimilarity (chromaQuery dist selected) threshold).length
        ≤ limit
    ∧ ((searchMemoriesBySimilarity (chromaQuery dist selected) threshold).map
        SimilarMemory.similarity).Pairwise fun a b => b ≤ a := by
  rw [search_chromaQuery]
  constructor
  · exact le_trans (le_trans (List.length_filter_le _ _)
      (le_of_eq (List.length_map _ _))) hcap
  · have hsub : (List.filter (fun m => decide (threshold ≤ m.similarity))
        (selected.map (entryRow dist))).Sublist (selected.map (entryRow dist)) :=
      List.filter_sublist _
    have hsub2 := hsub.map SimilarMemory.similarity
    have hmm : (selected.map (entryRow dist)).map SimilarMemory.similarity
        = selected.map fun e => jsNumOrZero (dist e) := by
      rw [List.map_map]
      rfl
    rw [hmm] at hsub2
    exact hrank.sublist hsub2

theorem claim_C4_search_cap_sorted_witness :
    (searchMemoriesBySimilarity (chromaQuery (fun _ => some (mkRat 9 10))
        [{ id := "m1", document := "d", embedding := [], metadata := [] }])
        (mkRat 1 2)).length ≤ 1
    ∧ ((searchMemoriesBySimilarity (chromaQuery (fun _ => some (mkRat 9 10))
        [{ id := "m1", document := "d", embedding := [], metadata := [] }])
        (mkRat 1 2)).map SimilarMemory.similarity).Pairwise fun a b => b ≤ a :=
  claim_C4_search_cap_sorted _ _ 1 _ (by decide) (by decide)

/-! ## Claim C5 -/

/-- C5: a similarity query scoped to user A never returns an entry owned by
user B, for any A distinct from B.  The hypothesis is the database `where`
contract: every entry it selects satisfies the equality filter on the
metadata userId and type that the source passes. -/
theorem claim_C5_search_user_scoped
    (dist : ChromaEntry → Option ℚ) (selected : List ChromaEntry)
    (A B : String) (threshold : ℚ) (hAB : A ≠ B)
    (hscope : ∀ e ∈ selected, chromaWhereMatch A e = true) :
    ((searchMemoriesBySimilarity (chromaQuery dist selected) threshold).all
      fun m => !(metaLookup m.metadata "userId" == some (MetaValue.str B)))
      = true := by
  rw [List.all_eq_true]
  intro m hm
  rw [Bool.not_eq_true', beq_eq_false_iff_ne]
  rw [search_chromaQuery] at hm
  have hm2 := List.mem_of_mem_filter hm
  obtain ⟨e, he, rfl⟩ := List.mem_map.mp hm2
  have hw := hscope e he
  unfold chromaWhereMatch at hw
  rw [Bool.and_eq_true] at hw
  obtain ⟨h1, _⟩ := hw
  cases hmu : metaLookup e.metadata "userId" with
  | none =>
    rw [hmu] at h1
    exact absurd h1 (by simp)
  | some v =>
    cases v with
    | num q =>
      rw [hmu] at h1
      exact absurd h1 (by simp)
    | str s =>
      rw [hmu] at h1
      simp only [beq_iff_eq] at h1
      show metaLookup e.metadata "userId" ≠ some (MetaValue.str B)
      rw [hmu]
      intro hc
      simp only [Option.some.injEq, MetaValue.str.injEq] at hc
      exact hAB (h1 ▸ hc)

theorem claim_C5_search_user_scoped_witness :
    ((searchMemoriesBySimilarity (chromaQuery (fun _ => some 1)
        [{ id := "m1", document := "d", embedding := [],
           metadata := [("userId", MetaValue.str "alice"),
                        ("type", MetaValue.str "memory")] }]) 0).all
      fun m => !(metaLookup m.metadata "userId"
        == some (MetaValue.str "bob"))) = true :=
  claim_C5_search_user_scoped _ _ "alice" "bob" 0 (by decide) (by decide)

/-! ## Claim C10 -/

/-- C10: the `|| 0` fallback coerces a missing or zero reported distance to
similarity 0, so for every strictly positive threshold an entry whose
reported distance is absent or exactly 0 is excluded from the results.
The hypothesis fixes the reported distance of every selected entry that
carries the id in question. -/
theorem claim_C10_zero_similarity_excluded
    (dist : ChromaEntry → Option ℚ) (selected : List ChromaEntry)
    (threshold : ℚ) (e : ChromaEntry)
    (hpos : 0 < threshold)
    (hfalsy : ∀ x ∈ selected, x.id = e.id → dist x = none ∨ dist x = some 0) :
    ((searchMemoriesBySimilarity (chromaQuery dist selected) threshold).all
      fun m => !(m.memoryId == e.id)) = true := by
  rw [List.all_eq_true]
  intro m hm
  rw [Bool.not_eq_true', beq_eq_false_iff_ne]
  intro heq
  rw [search_chromaQuery, List.mem_filter] at hm
  obtain ⟨hmem, hpass⟩ := hm
  obtain ⟨x, hx, rfl⟩ := List.mem_map.mp hmem
  have hid : x.id = e.id := heq
  have hsim : (entryRow dist x).similarity = 0 := by
    rcases hfalsy x hx hid with h | h <;> simp [entryRow, jsNumOrZero, h]
  rw [hsim] at hpass
  rw [decide_eq_true_eq] at hpass
  exact absurd hpass (not_le.mpr hpos)

theorem claim_C10_zero_similarity_excluded_witness :
    ((searchMemoriesBySimilarity (chromaQuery (fun _ => some 0)
        [{ id := "m0", document := "exact match", embedding := [],
           metadata := [("userId", MetaValue.str "u"),
                        ("type", MetaValue.str "memory")] }]) (mkRat 6 10)).all
      fun m => !(m.memoryId == "m0")) = true :=
  claim_C10_zero_similarity_excluded (fun _ => some 0)
    [{ id := "m0", document := "exact match", embedding := [],
       metadata := [("userId", MetaValue.str "u"),
                    ("type", MetaValue.str "memory")] }] (mkRat 6 10)
    { id := "m0", document := "exact match", embedding := [],
      metadata := [("userId", MetaValue.str "u"),
                   ("type", MetaValue.str "memory")] }
    (by norm_num) (by decide)

/-! ## Claim C6 -/

/-- C6: in both the create-memory and the (content-changing) update-memory
route, when summarization succeeds but embedding generation fails, the
relational store write does not occur — the store is returned unchanged and
the operation fails. -/
theorem claim_C6_no_partial_write
    (newId uid title content : String) (people tags : List String)
    (memoryId : String) (existing : MemoryRecord)
    (newTitle : Option String) (c : String)
    (newPeople : Option (List String)) (newTags : Option (List String))
    (store : List MemoryRecord)
    (summarizeOutcome : Except Unit AISummaryResponse)
    (embedOutcome : Except Unit (List ℚ))
    (s : AISummaryResponse)
    (hsum : summarizeOutcome = .ok s)
    (hemb : embedOutcome = .error ()) :
    (createMemoryRoute newId uid title content people tags
        summarizeOutcome embedOutcome store).1 = store
    ∧ (createMemoryRoute newId uid title content people tags
        summarizeOutcome embedOutcome store).2 = .error ()
    ∧ (updateMemoryRoute memoryId existing newTitle (some c) newPeople newTags
        summarizeOutcome embedOutcome store).1 = store
    ∧ (updateMemoryRoute memoryId existing newTitle (some c) newPeople newTags
        summarizeOutcome embedOutcome store).2 = .error () := by
  subst hsum
  subst hemb
  exact ⟨rfl, rfl, rfl, rfl⟩

/-- A concrete summarizer result used by the C6 witness. -/
def sampleSummaryResult : AISummaryResponse where
  summary := some "s"
  emotions :=
    { primary := some "joy"
      secondary := []
      intensity := some 7
      valence := some "positive" }
  tags := []
  people := []
  mood := some 8

/-- A concrete stored memory row used by the C6 witness. -/
def sampleExistingMemory : MemoryRecord where
  id := "mem-1"
  userId := "user-1"
  title := "Coffee"
  content := "old"
  summary := some "old"
  mood := some 5
  tags := []
  people := []
  embedding := []

theorem claim_C6_no_partial_write_witness :
    (createMemoryRoute "mem-1" "user-1" "Coffee" "Had coffee." ["Alex"] []
        (.ok sampleSummaryResult) (.error ()) []).1 = []
    ∧ (createMemoryRoute "mem-1" "user-1" "Coffee" "Had coffee." ["Alex"] []
        (.ok sampleSummaryResult) (.error ()) []).2 = .error ()
    ∧ (updateMemoryRoute "mem-1" sampleExistingMemory
        none (some "new content") none none
        (.ok sampleSummaryResult) (.error ()) []).1 = []
    ∧ (updateMemoryRoute "mem-1" sampleExistingMemory
        none (some "new content") none none
        (.ok sampleSummaryResult) (.error ()) []).2 = .error () :=
  claim_C6_no_partial_write "mem-1" "user-1" "Coffee" "Had coffee." ["Alex"] []
    "mem-1" sampleExistingMemory none "new content" none none []
    (.ok sampleSummaryResult) (.error ()) sampleSummaryResult rfl rfl

/-! ## Claim C7 -/

/-- C7: when the similarity search finds nothing at or above the floor,
`processMemoryQuery` does not fail: it returns the fixed empty response
with an empty memories list, the no-results explanation string and zero
confidence. -/
theorem claim_C7_empty_query_response (req : AIQueryRequest) (w : QueryWorld)
    (emb : List ℚ) (res : ChromaQueryResult)
    (hembed : w.embedOutcome = .ok emb)
    (hchroma : w.chromaOutcome = .ok res)
    (hempty : searchMemoriesBySimilarity res (mkRat 6 10) = []) :
    processMemoryQuery req w
      = .ok { memories := []
              query := req.query
              explanation := "No memories found matching your query."
              confidence := 0 } := by
  simp only [processMemoryQuery, hembed, hchroma, hempty]
  rfl

theorem claim_C7_empty_query_response_witness :
    processMemoryQuery { query := "anything", userId := "u7", limit := none }
      { embedOutcome := .ok [1]
        chromaOutcome := .ok { ids := none, distances := none,
                               documents := none, metadatas := none }
        store := []
        dbFails := false
        explainOutcome := .ok none }
      = .ok { memories := []
              query := "anything"
              explanation := "No memories found matching your query."
              confidence := 0 } :=
  claim_C7_empty_query_response _ _ [1]
    { ids := none, distances := none, documents := none, metadatas := none }
    rfl rfl rfl

/-! ## Claim C9 -/

/-- C9: the vector-index entry written by `updateMemoryEmbedding` with the
metadata supplied by the memory-update route carries no userId key, so it
fails the `where` equality filter of every userId-scoped similarity query
(including one by the owner) and is never among the entries such a query
selects. -/
theorem claim_C9_update_entry_loses_owner
    (memoryId content summary : String) (embedding : List ℚ)
    (title people tags : String) (mood : ℚ) (uid : String) :
    metaLookup (updateMemoryEmbeddingEntry memoryId content summary embedding
        (updateRouteVectorMetadata title people tags mood)).metadata "userId"
      = none
    ∧ chromaWhereMatch uid (updateMemoryEmbeddingEntry memoryId content summary
        embedding (updateRouteVectorMetadata title people tags mood)) = false
    ∧ ∀ selected : List ChromaEntry,
        (∀ x ∈ selected, chromaWhereMatch uid x = true) →
        updateMemoryEmbeddingEntry memoryId content summary embedding
          (updateRouteVectorMetadata title people tags mood) ∉ selected := by
  have hl : metaLookup (updateMemoryEmbeddingEntry memoryId content summary
      embedding (updateRouteVectorMetadata title people tags mood)).metadata
      "userId" = none := rfl
  have hw : chromaWhereMatch uid (updateMemoryEmbeddingEntry memoryId content
      summary embedding (updateRouteVectorMetadata title people tags mood))
      = false := by
    unfold chromaWhereMatch
    rw [hl]
    rfl
  refine ⟨hl, hw, ?_⟩
  intro selected hall hmem
  have hx := hall _ hmem
  rw [hw] at hx
  exact Bool.false_ne_true hx

theorem claim_C9_update_entry_loses_owner_witness :
    metaLookup (updateMemoryEmbeddingEntry "mem-9" "new text" "new summary"
        [1, 2] (updateRouteVectorMetadata "T" "Alex,Sam" "trip" 7)).metadata
        "userId"
      = none
    ∧ chromaWhereMatch "user-9" (updateMemoryEmbeddingEntry "mem-9" "new text"
        "new summary" [1, 2]
        (updateRouteVectorMetadata "T" "Alex,Sam" "trip" 7)) = false
    ∧ ∀ selected : List ChromaEntry,
        (∀ x ∈ selected, chromaWhereMatch "user-9" x = true) →
        updateMemoryEmbeddingEntry "mem-9" "new text" "new summary" [1, 2]
          (updateRouteVectorMetadata "T" "Alex,Sam" "trip" 7) ∉ selected :=
  claim_C9_update_entry_loses_owner "mem-9" "new text" "new summary" [1, 2]
    "T" "Alex,Sam" "trip" 7 "user-9"

/-! ## Claim C2 -/

/-- An LLM summary payload carrying the out-of-range mood score 11. -/
def moodElevenPayload : LlmSummaryPayload where
  summary := some "Had coffee with Alex."
  emotions :=
    some { primary := some "joy"
           secondary := some []
           intensity := some 7
           valence := some "positive" }
  tags := some ["coffee"]
  people := some ["Alex"]
  mood := some 11

/-- An LLM summary payload with the mood field missing entirely. -/
def moodMissingPayload : LlmSummaryPayload where
  summary := some "Had coffee with Alex."
  emotions :=
    some { primary := some "joy"
           secondary := some []
           intensity := some 7
           valence := some "positive" }
  tags := some ["coffee"]
  people := some ["Alex"]
  mood := none

/-- C2, settled against the source: `summarizeMemory` performs no schema
validation.  A payload with mood 11 and a payload missing mood both fail
the validity predicate the specification demands, yet `summarizeMemory`
returns them successfully instead of raising a failure, and the create
route then persists the out-of-range and the absent mood into the
relational store. -/
theorem claim_C2_summarize_schema_bug :
    specValidSummaryPayload moodElevenPayload = false
    ∧ specValidSummaryPayload moodMissingPayload = false
    ∧ (summarizeMemory (.ok (some moodElevenPayload))).map
        AISummaryResponse.mood = .ok (some 11)
    ∧ (summarizeMemory (.ok (some moodMissingPayload))).map
        AISummaryResponse.mood = .ok none
    ∧ ((createMemoryRoute "mem-2" "user-2" "Coffee" "Had coffee with Alex."
        ["Alex"] [] (summarizeMemory (.ok (some moodElevenPayload)))
        (.ok [1]) []).1.map MemoryRecord.mood) = [some 11]
    ∧ ((createMemoryRoute "mem-2" "user-2" "Coffee" "Had coffee with Alex."
        ["Alex"] [] (summarizeMemory (.ok (some moodMissingPayload)))
        (.ok [1]) []).1.map MemoryRecord.mood) = [none] :=
  ⟨rfl, rfl, rfl, rfl, rfl, rfl⟩

/-! ## Claim C8 -/

/-- A malformed candidate nudge: out-of-enum type and priority, missing
title. -/
def malformedNudge : NudgeCandidate where
  type := some "celebrate"
  title := none
  message := some "Time to party"
  priority := some "urgent"
  relatedPeople := none

/-- C8, settled against the source: `generateNudges` performs no candidate
validation.  A payload whose single candidate is missing its title and
carries an out-of-enum type and priority is returned as-is in the nudge
list rather than being rejected and dropped. -/
theorem claim_C8_nudges_schema_bug :
    specValidNudge malformedNudge = false
    ∧ generateNudges (.ok (some { nudges := some [malformedNudge] }))
        = .ok [malformedNudge] :=
  ⟨rfl, rfl⟩

/-! ## Claim C1 -/

/-- The relational store used by the C1 scenario: m1 precedes m2 in store
order. -/
def storeC1 : List MemoryRecord :=
  [{ id := "m1", userId := "u1", title := "first", content := "c1",
     summary := some "s1", mood := some 5, tags := [], people := [],
     embedding := [] },
   { id := "m2", userId := "u1", title := "second", content := "c2",
     summary := some "s2", mood := some 6, tags := [], people := [],
     embedding := [] }]

/-- The vector-store response of the C1 scenario: the similarity ranking
puts m2 first. -/
def chromaResC1 : ChromaQueryResult where
  ids := some ["m2", "m1"]
  distances := some [some (mkRat 9 10), some (mkRat 8 10)]
  documents := some [some "c2", some "c1"]
  metadatas :=
    some [some [("userId", MetaValue.str "u1"), ("summary", MetaValue.str "s2"),
                ("type", MetaValue.str "memory")],
          some [("userId", MetaValue.str "u1"), ("summary", MetaValue.str "s1"),
                ("type", MetaValue.str "memory")]]

/-- The external-call outcomes of the C1 scenario: all stages succeed. -/
def worldC1 : QueryWorld where
  embedOutcome := .ok [1]
  chromaOutcome := .ok chromaResC1
  store := storeC1
  dbFails := false
  explainOutcome := .ok (some "They match.")

/-- The request of the C1 scenario. -/
def reqC1 : AIQueryRequest where
  query := "coffee"
  userId := "u1"
  limit := none

/-- C1 is false of the source: in a run where the similarity search ranks
m2 before m1 but the relational store holds m1 before m2, the hydration
step performs no reordering, so `processMemoryQuery` returns the records
in store order m1, m2 — not in the similarity order m2, m1 the claim
asserts. -/
theorem claim_C1_hydration_counterexample :
    (searchMemoriesBySimilarity chromaResC1 (mkRat 6 10)).map
        SimilarMemory.memoryId = ["m2", "m1"]
    ∧ processMemoryQuery reqC1 worldC1
        = .ok { memories := storeC1, query := "coffee",
                explanation := "They match.", confidence := mkRat 9 10 }
    ∧ storeC1.map MemoryRecord.id = ["m1", "m2"]
    ∧ (["m1", "m2"] : List String) ≠ ["m2", "m1"] :=
  ⟨rfl, rfl, rfl, by decide⟩

/-- C1 amended: the hydration step performs no reordering — when every
stage succeeds and the search is non-empty, `processMemoryQuery` returns
the hydrated records exactly as the relational fetch produces them, a
filter of the store that preserves store order (a sublist of the store),
rather than records reordered to the similarity ranking. -/
theorem claim_C1_hydration_store_order (req : AIQueryRequest) (w : QueryWorld)
    (emb : List ℚ) (res : ChromaQueryResult) (content : Option String)
    (hembed : w.embedOutcome = .ok emb)
    (hchroma : w.chromaOutcome = .ok res)
    (hne : searchMemoriesBySimilarity res (mkRat 6 10) ≠ [])
    (hdb : w.dbFails = false)
    (hexp : w.explainOutcome = .ok content) :
    processMemoryQuery req w
      = .ok { memories := w.store.filter fun r =>
                (((searchMemoriesBySimilarity res (mkRat 6 10)).map
                  SimilarMemory.memoryId).contains r.id)
                  && r.userId == req.userId
              query := req.query
              explanation := jsStrOr content "Relevant memories found."
              confidence := jsNumOrZero
                ((searchMemoriesBySimilarity res (mkRat 6 10)).head?.map
                  SimilarMemory.similarity) }
    ∧ (w.store.filter fun r =>
        (((searchMemoriesBySimilarity res (mkRat 6 10)).map
          SimilarMemory.memoryId).contains r.id)
          && r.userId == req.userId).Sublist w.store :=
  ⟨processMemoryQuery_run req w emb res content hembed hchroma hne hdb hexp,
   List.filter_sublist _⟩

theorem claim_C1_hydration_store_order_witness :
    processMemoryQuery reqC1 worldC1
      = .ok { memories := worldC1.store.filter fun r =>
                (((searchMemoriesBySimilarity chromaResC1 (mkRat 6 10)).map
                  SimilarMemory.memoryId).contains r.id)
                  && r.userId == reqC1.userId
              query := reqC1.query
              explanation := jsStrOr (some "They match.")
                "Relevant memories found."
              confidence := jsNumOrZero
                ((searchMemoriesBySimilarity chromaResC1 (mkRat 6 10)).head?.map
                  SimilarMemory.similarity) }
    ∧ (worldC1.store.filter fun r =>
        (((searchMemoriesBySimilarity chromaResC1 (mkRat 6 10)).map
          SimilarMemory.memoryId).contains r.id)
          && r.userId == reqC1.userId).Sublist worldC1.store :=
  claim_C1_hydration_store_order reqC1 worldC1 [1] chromaResC1
    (some "They match.") rfl rfl (by decide) rfl rfl

/-! ## Claim C3 -/

/-- The vector-store response of the C3 scenario: one match above the
floor. -/
def chromaResC3 : ChromaQueryResult where
  ids := some ["m9"]
  distances := some [some (mkRat 7 10)]
  documents := some [some "doc9"]
  metadatas :=
    some [some [("userId", MetaValue.str "u9"), ("summary", MetaValue.str "s9"),
                ("type", MetaValue.str "memory")]]

/-- The external-call outcomes of the C3 scenario: embed, search and
hydrate succeed, the explain LLM call throws. -/
def worldC3 : QueryWorld where
  embedOutcome := .ok [1]
  chromaOutcome := .ok chromaResC3
  store := [{ id := "m9", userId := "u9", title := "t9", content := "doc9",
              summary := some "s9", mood := some 6, tags := [], people := [],
              embedding := [] }]
  dbFails := false
  explainOutcome := .error ()

/-- The request of the C3 scenario. -/
def reqC3 : AIQueryRequest where
  query := "q3"
  userId := "u9"
  limit := some 5

/-- C3 is false of the source: in a run where embed, search and hydrate
succeed (one match above the floor, hydratable from the store) and only
the explain LLM call throws, `processMemoryQuery` aborts with an error
instead of substituting the generic explanation string and returning the
hydrated memories. -/
theorem claim_C3_explain_abort_counterexample :
    worldC3.embedOutcome = .ok [1]
    ∧ worldC3.chromaOutcome = .ok chromaResC3
    ∧ (searchMemoriesBySimilarity chromaResC3 (mkRat 6 10)).length = 1
    ∧ worldC3.dbFails = false
    ∧ worldC3.explainOutcome = .error ()
    ∧ processMemoryQuery reqC3 worldC3 = .error () :=
  ⟨rfl, rfl, rfl, rfl, rfl, rfl⟩

/-- C3 amended: only a missing or empty content in a successfully returned
explain response degrades to the fixed generic explanation string, with
the hydrated memories still returned; an explain call that throws aborts
the whole query. -/
theorem claim_C3_explain_empty_content_fallback (req : AIQueryRequest)
    (w : QueryWorld) (emb : List ℚ) (res : ChromaQueryResult)
    (content : Option String)
    (hembed : w.embedOutcome = .ok emb)
    (hchroma : w.chromaOutcome = .ok res)
    (hne : searchMemoriesBySimilarity res (mkRat 6 10) ≠ [])
    (hdb : w.dbFails = false)
    (hexp : w.explainOutcome = .ok content)
    (hcontent : content = none ∨ content = some "") :
    processMemoryQuery req w
      = .ok { memories := w.store.filter fun r =>
                (((searchMemoriesBySimilarity res (mkRat 6 10)).map
                  SimilarMemory.memoryId).contains r.id)
                  && r.userId == req.userId
              query := req.query
              explanation := "Relevant memories found."
              confidence := jsNumOrZero
                ((searchMemoriesBySimilarity res (mkRat 6 10)).head?.map
                  SimilarMemory.similarity) } := by
  have h := processMemoryQuery_run req w emb res content hembed hchroma hne
    hdb hexp
  rcases hcontent with hc | hc <;> rw [hc] at h <;> exact h

theorem claim_C3_explain_empty_content_fallback_witness :
    processMemoryQuery reqC3
      { worldC3 with explainOutcome := .ok none }
      = .ok { memories := worldC3.store.filter fun r =>
                (((searchMemoriesBySimilarity chromaResC3 (mkRat 6 10)).map
                  SimilarMemory.memoryId).contains r.id)
                  && r.userId == reqC3.userId
              query := reqC3.query
              explanation := "Relevant memories found."
              confidence := jsNumOrZero
                ((searchMemoriesBySimilarity chromaResC3 (mkRat 6 10)).head?.map
                  SimilarMemory.similarity) } :=
  claim_C3_explain_empty_content_fallback reqC3
    { worldC3 with explainOutcome := .ok none } [1] chromaResC3 none
    rfl rfl (by decide) rfl rfl (Or.inl rfl)

end MemoryNest
